import Mathlib

/-!
Verification development for the Scholar_Extractor repository.

The definitions below are a shallow embedding of the PDF link resolution
and acquisition pipeline of src/download_citation_pdfs.py (and the title
normalisation helper of src/Query_cited_articles.py).  External effects
(HTTP requests, scripted browser sessions, ledger persistence) are made
explicit: every embedded function returns, next to its value, the list of
observable operations it performed, and takes an Oracle describing the
responses of the outside world.  Fallible code returns Except: an
Except.error models a Python exception propagating out of the function.
-/

/-! ## Python string primitives used by the source -/

/-- Python list-of-characters containment test: does the haystack contain
the needle as a contiguous run?  Models the Python operator (needle in hay). -/
def listContains (needle : List Char) : List Char → Bool
  | [] => needle.isEmpty
  | c :: rest => needle.isPrefixOf (c :: rest) || listContains needle rest

/-- Models Python (needle in hay) on strings. -/
def strContains (hay needle : String) : Bool :=
  listContains needle.data hay.data

/-- Models Python str.endswith. -/
def pyEndsWith (s suffix : String) : Bool :=
  suffix.data.isSuffixOf s.data

/-- Models Python str.startswith. -/
def pyStartsWith (s pre : String) : Bool :=
  pre.data.isPrefixOf s.data

/-- Models Python str.lower (ASCII view). -/
def pyLower (s : String) : String :=
  String.mk (s.data.map Char.toLower)

/-- Models Python str.isdigit: nonempty and all digits. -/
def pyIsDigit (s : String) : Bool :=
  !s.data.isEmpty && s.data.all Char.isDigit

/-- Models Python part.replace with a one-character pattern and empty
replacement: removes every occurrence of the dot. -/
def stripDots (s : String) : String :=
  String.mk (s.data.filter (fun c => c ≠ '.'))

/-- Helper for Python str.split(sep, maxsplit) on a one-character separator:
splits at most fuel times, the remainder stays in the final piece. -/
def pySplitMaxAux (sep : Char) : List Char → Nat → List Char → List (List Char)
  | [], _, acc => [acc.reverse]
  | c :: rest, fuel, acc =>
    if c = sep ∧ fuel ≠ 0 then acc.reverse :: pySplitMaxAux sep rest (fuel - 1) []
    else pySplitMaxAux sep rest fuel (c :: acc)

/-- Models Python s.split(sep, maxsplit) for a one-character separator. -/
def pySplitMax (s : String) (sep : Char) (maxsplit : Nat) : List String :=
  (pySplitMaxAux sep s.data maxsplit []).map String.mk

/-- Models Python s.split(sep) (unbounded) for a one-character separator. -/
def pySplit (s : String) (sep : Char) : List String :=
  pySplitMax s sep s.data.length

/-- The characters after the last occurrence of a (non-self-overlapping)
separator, if the separator occurs at all. -/
def afterLastOcc (sep : List Char) : List Char → Option (List Char)
  | [] => none
  | c :: rest =>
    match afterLastOcc sep rest with
    | some r => some r
    | none => if sep.isPrefixOf (c :: rest) then some ((c :: rest).drop sep.length) else none

/-- Models Python s.split(sep)[-1] for a non-self-overlapping separator:
the text after the last occurrence of sep, or all of s when sep is absent. -/
def pyAfterLast (s sep : String) : String :=
  match afterLastOcc sep.data s.data with
  | some r => String.mk r
  | none => s

/-- Python truthiness of a string: nonempty. -/
def truthyS (s : String) : Bool := !s.data.isEmpty

/-- Python truthiness of an optional string (None and the empty string are
falsy). -/
def truthyO : Option String → Bool
  | none => false
  | some s => truthyS s

/-- Models the Python expression (d or t) for an optional string d and a
string t. -/
def orElseT (d : Option String) (t : String) : String :=
  match d with
  | none => t
  | some s => if truthyS s then s else t

/-- Embeds normalize_title of src/Query_cited_articles.py: keep only
alphanumeric characters, each lowercased. -/
def normalize_title (title : String) : String :=
  String.mk ((title.data.filter Char.isAlphanum).map Char.toLower)

/-! ## Data model -/

/-- A Citation Record as consumed by main of src/download_citation_pdfs.py:
the fields read from each citing-article JSON object.  A none venue
models a JSON null venue — which the upstream script emits for
venue-less articles; dict.get then returns None, not the default.  A
record whose venue key were absent would behave like some "". -/
structure Article where
  title : String
  authors : Option String
  url : Option String
  pub_url : Option String
  venue : Option String
  doi : Option String
deriving DecidableEq, Repr

/-- A Ledger Entry, as built at lines 432-437 of
src/download_citation_pdfs.py. -/
structure Entry where
  title : String
  doi : Option String
  pdf_url : Option String
  downloaded : Bool
  fail_reason : Option String
deriving DecidableEq, Repr

/-- The kind of a plain HTTP request issued by the pipeline. -/
inductive NetKind where
  | crossref
  | unpaywall
  | semantic
  | publisherPlain
  | direct
  | cookieGet
deriving DecidableEq, Repr

/-- An observable external operation of the pipeline: an HTTP request, the
opening or closing of a scripted browser session, an invocation of the
browser-driven download fallback, or a persistence of the whole ledger. -/
inductive Op where
  | net (k : NetKind)
  | browserOpen
  | browserClose
  | selInvoke
  | save (entries : List Entry)
deriving DecidableEq, Repr

def isNetOp : Op → Bool
  | Op.net _ => true
  | _ => false

def isDirectNet : Op → Bool
  | Op.net NetKind.direct => true
  | _ => false

def isSelInvoke : Op → Bool
  | Op.selInvoke => true
  | _ => false

def isBrowserOpen : Op → Bool
  | Op.browserOpen => true
  | _ => false

def isBrowserClose : Op → Bool
  | Op.browserClose => true
  | _ => false

/-- Number of operations of a trace satisfying a predicate. -/
def countOps (tr : List Op) (p : Op → Bool) : Nat :=
  (tr.filter p).length

/-- Outcome of the browser-rendered stage of
get_pdf_link_from_publisher_page (lines 144-170): the session may fail to
launch, may raise after launching, or may deliver the rendered page
(its current URL and the href values of its anchors). -/
inductive PubSelOutcome where
  | exnBeforeOpen
  | exnAfterOpen
  | page (currentUrl : String) (hrefs : List String)
deriving DecidableEq, Repr

/-- Outcome of the browser session of scrape_pdf_with_selenium
(lines 348-399): launch failure, an exception after launch, or a rendered
page whose selector search found (or did not find) a clickable element
with the given href. -/
inductive ScrapeOutcome where
  | exnBeforeOpen
  | exnAfterOpen
  | page (found : Option String)
deriving DecidableEq, Repr

/-- Outcome of one invocation of download_pdf_selenium (lines 228-280):
the uc.Chrome launch itself may raise (before the try/finally is entered,
so the exception escapes), an exception inside the try block is caught,
a new file may appear in the download directory, the session may end on a
direct file URL (re-fetched with the session cookies, succeeding or not),
or nothing may be found. -/
inductive DlSelOutcome where
  | launchExn (msg : String)
  | caughtExn (msg : String)
  | fileFound
  | curUrlPdf (ok : Bool)
  | noFile
deriving DecidableEq, Repr

/-- Response of the direct transfer issued by download_pdf (line 309):
either the request raised, or it returned a status code and a body which
may contain the interstitial challenge marker. -/
inductive DirectResp where
  | exn (msg : String)
  | resp (status : Nat) (challengeMarker : Bool)
deriving DecidableEq, Repr

/-- The outside world: responses of every external collaborator the
pipeline talks to.  Browser-stage oracles are keyed by the URL (or DOI)
they are invoked on; dlSel additionally by the invocation index inside one
download_pdf call; saveOk by the item index of the run. -/
structure Oracle where
  crossref : String → Option String → Option String
  unpaywall : String → Option String
  semantic : String → Option (List String)
  publisherPlain : String → Option (String × List String)
  publisherSel : String → PubSelOutcome
  scrapeSel : String → ScrapeOutcome
  direct : String → DirectResp
  dlSel : String → Nat → DlSelOutcome
  saveOk : Nat → Bool

/-! ## Resolver strategies -/

/-- Embeds get_doi_from_crossref (lines 52-64): one HTTP request against
the CrossRef API; any exception is caught and yields None. -/
def get_doi_from_crossref (o : Oracle) (title : String) (authors : Option String) :
    Option String × List Op :=
  (o.crossref title authors, [Op.net NetKind.crossref])

/-- Embeds get_pdf_link_from_unpaywall (lines 67-86): one HTTP request
against the Unpaywall API; any exception is caught and yields None. -/
def get_pdf_link_from_unpaywall (o : Oracle) (doi : String) : Option String × List Op :=
  (o.unpaywall doi, [Op.net NetKind.unpaywall])

/-- The PDF-likeness test shared by the two scraping strategies (lines
99 and 136): href.endswith(".pdf") or "/pdf" in href — case-sensitive,
on the raw href text. -/
def isPdfLike (href : String) : Bool :=
  pyEndsWith href ".pdf" || strContains href "/pdf"

/-- The anchor scan shared by the two scraping strategies (lines 97-103
and 134-140): return the first PDF-like href, prefixed with the given
base when it is host-relative (starts with "/"). -/
def scan_pdf_anchors (base : String) : List String → Option String
  | [] => none
  | href :: rest =>
    if isPdfLike href then
      some (if pyStartsWith href "/" then base ++ href else href)
    else scan_pdf_anchors base rest

/-- Embeds get_pdf_link_from_semanticscholar (lines 89-106).  An invalid
URL (not starting with "http") is rejected before any request.  The base
used for host-relative anchors is the fixed string
"https://www.semanticscholar.org" (line 101), independent of the page
actually fetched. -/
def get_pdf_link_from_semanticscholar (o : Oracle) (semantic_url : String) :
    Option String × List Op :=
  if !pyStartsWith semantic_url "http" then (none, [])
  else
    match o.semantic semantic_url with
    | none => (none, [Op.net NetKind.semantic])
    | some hrefs =>
      (scan_pdf_anchors "https://www.semanticscholar.org" hrefs, [Op.net NetKind.semantic])

/-- The AttributeError escaping line 110 when the venue is null:
article.get("venue", "") returns the stored None, and None.lower()
raises. -/
def attrErrVenue : String := "AttributeError: NoneType has no attribute lower"

/-- Embeds get_pdf_link_from_arxiv_biorxiv (lines 109-125): preprint
pattern matching, with CrossRef DOI derivation as fallback (one extra
network request per branch that reaches it).  Line 110 computes
article.get("venue", "").lower(): on a null venue this raises an
AttributeError that escapes the function (no handler here or in main),
modelled as an Except.error, before any network operation. -/
def get_pdf_link_from_arxiv_biorxiv (o : Oracle) (article : Article) :
    Except String (Option String) × List Op :=
  match article.venue with
  | none => (Except.error attrErrVenue, [])
  | some v =>
  let venue := pyLower v
  let arxivRes : Option String × List Op :=
    if strContains venue "arxiv" then
      let url := article.url.getD ""
      let fromUrl : Option String :=
        if truthyS url && strContains url "arxiv.org" then
          match (pySplit url '/').find? (fun part => pyIsDigit (stripDots part)) with
          | some part => some ("https://arxiv.org/pdf/" ++ part ++ ".pdf")
          | none => none
        else none
      match fromUrl with
      | some u => (some u, [])
      | none =>
        let (doi, tr) := get_doi_from_crossref o article.title none
        match doi with
        | some d =>
          if pyStartsWith d "10.48550/arXiv." then
            (some ("https://arxiv.org/pdf/" ++ pyAfterLast d "arXiv." ++ ".pdf"), tr)
          else (none, tr)
        | none => (none, tr)
    else (none, [])
  match arxivRes with
  | (some u, tr) => (Except.ok (some u), tr)
  | (none, tr1) =>
    if strContains venue "biorxiv" then
      let (doi, tr2) := get_doi_from_crossref o article.title none
      match doi with
      | some d =>
        if pyStartsWith d "10.1101/" then
          (Except.ok (some ("https://www.biorxiv.org/content/" ++ d ++ "/full.pdf")),
           tr1 ++ tr2)
        else (Except.ok none, tr1 ++ tr2)
      | none => (Except.ok none, tr1 ++ tr2)
    else (Except.ok none, tr1)

/-- The scheme-and-host prefix of a URL, as computed at lines 138-139 and
163-164: "/".join(url.split("/", 3)[0:3]). -/
def schemeHost (u : String) : String :=
  String.intercalate "/" ((pySplitMax u '/' 3).take 3)

/-- Embeds get_pdf_link_from_publisher_page (lines 128-170).  First a
plain HTTP fetch of the DOI resolver URL; when that raises or yields no
PDF-like anchor, a scripted browser session renders the same URL.  Note
the browser stage closes the session on both normal exits but not on the
exception path (the except clause at line 168 only prints). -/
def get_pdf_link_from_publisher_page (o : Oracle) (doi : String) :
    Option String × List Op :=
  let plain : Option String :=
    match o.publisherPlain doi with
    | none => none
    | some (finalUrl, hrefs) => scan_pdf_anchors (schemeHost finalUrl) hrefs
  match plain with
  | some h => (some h, [Op.net NetKind.publisherPlain])
  | none =>
    let sel : Option String × List Op :=
      match o.publisherSel doi with
      | PubSelOutcome.exnBeforeOpen => (none, [])
      | PubSelOutcome.exnAfterOpen => (none, [Op.browserOpen])
      | PubSelOutcome.page cu hrefs =>
        match scan_pdf_anchors (schemeHost cu) hrefs with
        | some h => (some h, [Op.browserOpen, Op.browserClose])
        | none => (none, [Op.browserOpen, Op.browserClose])
    (sel.1, Op.net NetKind.publisherPlain :: sel.2)

/-- Embeds scrape_pdf_with_selenium (lines 348-399): a scripted browser
session over the public landing page; the session is closed on the found
path, the not-found path, and (when it was opened) the exception path. -/
def scrape_pdf_with_selenium (o : Oracle) (url : String) : Option String × List Op :=
  match o.scrapeSel url with
  | ScrapeOutcome.exnBeforeOpen => (none, [])
  | ScrapeOutcome.exnAfterOpen => (none, [Op.browserOpen, Op.browserClose])
  | ScrapeOutcome.page found =>
    match found with
    | some href =>
      if strContains href ".pdf" then (some href, [Op.browserOpen, Op.browserClose])
      else (none, [Op.browserOpen, Op.browserClose])
    | none => (none, [Op.browserOpen, Op.browserClose])

/-! ## Acquisition engine -/

/-- Embeds download_pdf_selenium (lines 228-280).  The uc.Chrome launch
(line 240) sits before the try block, so a launch failure escapes as an
exception; the finally clause closes the session in every other case. -/
def download_pdf_selenium (o : Oracle) (pdf_url : String) (i : Nat) :
    Except String (Bool × Option String) × List Op :=
  match o.dlSel pdf_url i with
  | DlSelOutcome.launchExn m => (Except.error m, [Op.selInvoke])
  | DlSelOutcome.caughtExn m =>
    (Except.ok (false, some m), [Op.selInvoke, Op.browserOpen, Op.browserClose])
  | DlSelOutcome.fileFound =>
    (Except.ok (true, none), [Op.selInvoke, Op.browserOpen, Op.browserClose])
  | DlSelOutcome.curUrlPdf ok =>
    ((if ok then Except.ok (true, none)
      else Except.ok (false, some "PDF not found after Selenium download")),
     [Op.selInvoke, Op.browserOpen, Op.net NetKind.cookieGet, Op.browserClose])
  | DlSelOutcome.noFile =>
    (Except.ok (false, some "PDF not found after Selenium download"),
     [Op.selInvoke, Op.browserOpen, Op.browserClose])

/-- The generic exception handler of download_pdf (lines 321-329): one
browser-driven fallback attempt; on its failure the reported reason
combines the original exception text with the fallback reason. -/
def download_pdf_fallback (o : Oracle) (pdf_url : String) (emsg : String) (i : Nat)
    (pre : List Op) : Except String (Bool × Option String) × List Op :=
  match download_pdf_selenium o pdf_url i with
  | (Except.ok (true, _), tr) => (Except.ok (true, none), pre ++ tr)
  | (Except.ok (false, fr), tr) =>
    (Except.ok (false, some (emsg ++ " | Selenium: " ++ fr.getD "None")), pre ++ tr)
  | (Except.error m, tr) => (Except.error m, pre ++ tr)

/-- Embeds download_pdf (lines 283-329).  Header construction (referer
rules and cookie injection, lines 284-306) is pure bookkeeping with no
observable effect in this model and is not repeated here.  A 403 status
or a challenge marker in the body triggers the browser-driven fallback at
line 314; any exception inside the try block — including one raised by
that first fallback call — lands in the handler at line 321, which makes
one further fallback call. -/
def download_pdf (o : Oracle) (pdf_url : String) :
    Except String (Bool × Option String) × List Op :=
  match o.direct pdf_url with
  | DirectResp.exn m => download_pdf_fallback o pdf_url m 0 [Op.net NetKind.direct]
  | DirectResp.resp status marker =>
    if status = 403 ∨ marker = true then
      match download_pdf_selenium o pdf_url 0 with
      | (Except.ok (success, fail_reason), tr) =>
        (Except.ok (success, if success then none else fail_reason),
         Op.net NetKind.direct :: tr)
      | (Except.error m, tr) =>
        download_pdf_fallback o pdf_url m 1 (Op.net NetKind.direct :: tr)
    else if 400 ≤ status then
      download_pdf_fallback o pdf_url ("HTTPError " ++ toString status) 0
        [Op.net NetKind.direct]
    else (Except.ok (true, none), [Op.net NetKind.direct])

/-! ## Resolution waterfall -/

/-- A name for each strategy of the chain at lines 419-426 of main. -/
inductive Strat where
  | unpaywall
  | semantic
  | preprint
  | publisher
  | genericB
deriving DecidableEq, Repr

/-- The canonical strategy order of the chain at lines 419-426. -/
def canonicalOrder : List Strat :=
  [Strat.unpaywall, Strat.semantic, Strat.preprint, Strat.publisher, Strat.genericB]

/-- State of the waterfall: the current pdf_url variable, the strategies
attempted so far with their raw results, and the operations performed. -/
structure WFState where
  cur : Option String
  atts : List (Strat × Option String)
  ops : List Op
deriving DecidableEq, Repr

/-- Lift an infallible strategy into the fallible clause shape: the four
other strategies catch every exception internally and return None, so
they never raise out of the chain. -/
def liftStrat (p : Option String × List Op) : Except String (Option String) × List Op :=
  (Except.ok p.1, p.2)

/-- One guarded clause of the if-chain at lines 419-426: run the strategy
when pdf_url is still falsy and the clause guard holds, assigning its
result to pdf_url; a strategy that raises aborts the chain (main has no
handler around it). -/
def wfStep (w : WFState) (guard : Bool) (s : Strat)
    (run : Unit → Except String (Option String) × List Op) : Except String WFState :=
  if !truthyO w.cur && guard then
    match (run ()).1 with
    | Except.error m => Except.error m
    | Except.ok r =>
      Except.ok { cur := r, atts := w.atts ++ [(s, r)], ops := w.ops ++ (run ()).2 }
  else Except.ok w

/-- Run the remaining clauses of the chain in order; an escaped exception
short-circuits everything after it. -/
def wfRun : Except String WFState →
    List (Bool × Strat × (Unit → Except String (Option String) × List Op)) →
    Except String WFState
  | Except.error m, _ => Except.error m
  | Except.ok w, [] => Except.ok w
  | Except.ok w, (g, s, f) :: rest => wfRun (wfStep w g s f) rest

/-- The clause list of the chain at lines 419-426, for a record and the
effective DOI computed at line 412.  Clause guards are the Python
truthiness tests of the respective if conditions. -/
def strategyClauses (o : Oracle) (a : Article) (d : Option String) :
    List (Bool × Strat × (Unit → Except String (Option String) × List Op)) :=
  [ (truthyO d, Strat.unpaywall,
      fun _ => liftStrat (get_pdf_link_from_unpaywall o (d.getD ""))),
    (truthyO a.url, Strat.semantic,
      fun _ => liftStrat (get_pdf_link_from_semanticscholar o (a.url.getD ""))),
    (true, Strat.preprint, fun _ => get_pdf_link_from_arxiv_biorxiv o a),
    (truthyO d, Strat.publisher,
      fun _ => liftStrat (get_pdf_link_from_publisher_page o (d.getD ""))),
    (truthyO a.pub_url, Strat.genericB,
      fun _ => liftStrat (scrape_pdf_with_selenium o (a.pub_url.getD ""))) ]

/-- Embeds the strategy chain at lines 419-426 of main: the five guarded
clauses, run in order on an initially falsy pdf_url; an Except.error is
an exception escaping a strategy and aborting the run. -/
def resolveStrategies (o : Oracle) (a : Article) (d : Option String) :
    Except String WFState :=
  wfRun (Except.ok { cur := none, atts := [], ops := [] }) (strategyClauses o a d)

/-! ## Progress ledger -/

/-- The in-memory ledger: insertion-ordered key-to-entry mapping, as a
Python dict. -/
def Ledger : Type := List (String × Entry)

instance : DecidableEq Ledger := by
  unfold Ledger
  infer_instance

/-- Python dict lookup. -/
def lookupL : Ledger → String → Option Entry
  | [], _ => none
  | (k, e) :: rest, key => if k = key then some e else lookupL rest key

/-- Python dict assignment log_dict[log_key] = entry: replace in place
when the key exists, append otherwise. -/
def upsert : Ledger → String → Entry → Ledger
  | [], key, e => [(key, e)]
  | (k, e0) :: rest, key, e =>
    if k = key then (key, e) :: rest else (k, e0) :: upsert rest key e

/-- The values of the ledger dict, in insertion order: what
save_download_log_dict (lines 343-345) writes out as list(log_dict.values()). -/
def ledgerValues (L : Ledger) : List Entry :=
  L.map Prod.snd

/-- The keys of the ledger dict, in insertion order. -/
def ledgerKeys (L : Ledger) : List String :=
  L.map Prod.fst

/-- Embeds the key computation of load_download_log_dict (line 337):
entry.get("doi") or entry.get("title"). -/
def loadKey (e : Entry) : String :=
  orElseT e.doi e.title

/-- Embeds load_download_log_dict (lines 332-340): build the dict from the
persisted entry list, later entries overwriting earlier ones with the
same key. -/
def load_download_log_dict (entries : List Entry) : Ledger :=
  entries.foldl (fun L e => upsert L (loadKey e) e) []

/-- The skip test of main (line 415):
log_dict.get(log_key, ...).get("downloaded", False). -/
def downloadedAt (L : Ledger) (key : String) : Bool :=
  ((lookupL L key).map Entry.downloaded).getD false

/-! ## Pipeline driver -/

/-- The effective DOI of line 412: article.get("doi") or
get_doi_from_crossref(title, authors). -/
def effDoi (o : Oracle) (a : Article) : Option String :=
  if truthyO a.doi then a.doi else o.crossref a.title a.authors

/-- The ledger key of line 414: doi or title. -/
def keyOf (o : Oracle) (a : Article) : String :=
  orElseT (effDoi o a) a.title

/-- The network operations of the identity computation at line 412: the
CrossRef derivation request is issued exactly when the record itself has
no truthy DOI. -/
def doiOps (a : Article) : List Op :=
  if truthyO a.doi then [] else [Op.net NetKind.crossref]

/-- The terminal failure reason of the no-URL branch (line 436). -/
def noPdfReason : String := "No PDF found (may be paywalled or unavailable)"

/-- Embeds the body of the per-article loop of main (lines 407-442):
compute the identity (possibly via CrossRef), skip when the ledger shows
downloaded, otherwise run the waterfall, acquire when a usable URL was
found, upsert the ledger entry and persist the whole table.  An
Except.error models an uncaught Python exception aborting the run (the
ledger write at line 441 has no handler, nor does a browser launch
failure escaping download_pdf). -/
def processItem (o : Oracle) (idx : Nat) (L : Ledger) (a : Article) :
    Except String (Ledger × List Op) :=
  let d := effDoi o a
  let key := keyOf o a
  if downloadedAt L key then Except.ok (L, doiOps a)
  else
    match resolveStrategies o a d with
    | Except.error m => Except.error m
    | Except.ok w =>
    let pdfUrl := w.cur
    if truthyO pdfUrl && pyStartsWith (pdfUrl.getD "") "http" then
      match download_pdf o (pdfUrl.getD "") with
      | (Except.error m, _) => Except.error m
      | (Except.ok (success, fail_reason), opsD) =>
        let entry : Entry :=
          { title := a.title, doi := d, pdf_url := pdfUrl,
            downloaded := success, fail_reason := fail_reason }
        let newL := upsert L key entry
        if o.saveOk idx then
          Except.ok (newL, doiOps a ++ w.ops ++ opsD ++ [Op.save (ledgerValues newL)])
        else Except.error "ledger write failed"
    else
      let entry : Entry :=
        { title := a.title, doi := d, pdf_url := none,
          downloaded := false, fail_reason := some noPdfReason }
      let newL := upsert L key entry
      if o.saveOk idx then
        Except.ok (newL, doiOps a ++ w.ops ++ [Op.save (ledgerValues newL)])
      else Except.error "ledger write failed"

/-- Embeds the loop of main (lines 407-442) over the citing-article list:
strictly sequential, the trace of a run is the concatenation of the item
traces; an uncaught exception aborts the whole run. -/
def main_loop (o : Oracle) : Nat → Ledger → List Article → Except String (Ledger × List Op)
  | _, L, [] => Except.ok (L, [])
  | idx, L, a :: rest =>
    match processItem o idx L a with
    | Except.error m => Except.error m
    | Except.ok (L1, tr) =>
      match main_loop o (idx + 1) L1 rest with
      | Except.error m => Except.error m
      | Except.ok (L2, tr2) => Except.ok (L2, tr ++ tr2)

/-! ## Helper lemmas: the waterfall -/

/-- Invariant of the waterfall state: every attempted strategy except the
last returned a falsy result, the last attempt (when any) returned the
current pdf_url, and before any attempt pdf_url is None. -/
def WFInv (w : WFState) : Prop :=
  (∀ p ∈ w.atts.dropLast, truthyO p.2 = false)
  ∧ (∀ h : w.atts ≠ [], (w.atts.getLast h).2 = w.cur)
  ∧ (w.atts = [] → w.cur = none)

theorem wfStep_inv (w w2 : WFState) (g : Bool) (s : Strat)
    (f : Unit → Except String (Option String) × List Op) (hw : WFInv w)
    (h : wfStep w g s f = Except.ok w2) : WFInv w2 := by
  unfold wfStep at h
  by_cases hc : (!truthyO w.cur && g) = true
  · rw [if_pos hc] at h
    have hcur : truthyO w.cur = false := by
      have := (Bool.and_eq_true _ _ ▸ hc).1
      simpa using this
    cases hf : (f ()).1 with
    | error m => rw [hf] at h; exact Except.noConfusion h
    | ok r =>
      rw [hf] at h
      injection h with h2
      subst h2
      refine ⟨?_, ?_, ?_⟩
      · intro p hp
        simp only [List.dropLast_concat] at hp
        by_cases hnil : w.atts = []
        · rw [hnil] at hp; exact absurd hp (List.not_mem_nil p)
        · have hdecomp := List.dropLast_append_getLast hnil
          rw [← hdecomp] at hp
          rcases List.mem_append.mp hp with h1 | h2
          · exact hw.1 p h1
          · have hpl : p = w.atts.getLast hnil := by simpa using h2
            rw [hpl, hw.2.1 hnil]
            exact hcur
      · intro h
        simp only [List.getLast_concat]
      · intro h
        exact absurd h (by simp)
  · rw [if_neg hc] at h
    injection h with h2
    subst h2
    exact hw

theorem wfRun_error (m : String)
    (cs : List (Bool × Strat × (Unit → Except String (Option String) × List Op))) :
    wfRun (Except.error m) cs = Except.error m := by
  cases cs <;> rfl

theorem wfRun_inv (cs : List (Bool × Strat × (Unit → Except String (Option String) × List Op))) :
    ∀ w w2 : WFState, wfRun (Except.ok w) cs = Except.ok w2 → WFInv w → WFInv w2 := by
  induction cs with
  | nil =>
    intro w w2 h hw
    injection h with h2
    subst h2
    exact hw
  | cons c rest ih =>
    intro w w2 h hw
    obtain ⟨g, s, f⟩ := c
    rw [show wfRun (Except.ok w) ((g, s, f) :: rest) = wfRun (wfStep w g s f) rest
        from rfl] at h
    cases hs : wfStep w g s f with
    | error m => rw [hs, wfRun_error] at h; exact Except.noConfusion h
    | ok w1 =>
      rw [hs] at h
      exact ih w1 w2 h (wfStep_inv w w1 g s f hw hs)

theorem wfRun_atts_extend
    (cs : List (Bool × Strat × (Unit → Except String (Option String) × List Op))) :
    ∀ w w2 : WFState, wfRun (Except.ok w) cs = Except.ok w2 →
      ∃ t, w2.atts = w.atts ++ t
        ∧ (t.map Prod.fst).Sublist (cs.map (fun c => c.2.1)) := by
  induction cs with
  | nil =>
    intro w w2 h
    injection h with h2
    subst h2
    exact ⟨[], by simp, by simp⟩
  | cons c rest ih =>
    intro w w2 h
    obtain ⟨g, s, f⟩ := c
    rw [show wfRun (Except.ok w) ((g, s, f) :: rest) = wfRun (wfStep w g s f) rest
        from rfl] at h
    cases hs : wfStep w g s f with
    | error m => rw [hs, wfRun_error] at h; exact Except.noConfusion h
    | ok w1 =>
      rw [hs] at h
      obtain ⟨t, ht, hsub⟩ := ih w1 w2 h
      unfold wfStep at hs
      by_cases hc : (!truthyO w.cur && g) = true
      · rw [if_pos hc] at hs
        cases hf : (f ()).1 with
        | error m2 => rw [hf] at hs; exact Except.noConfusion hs
        | ok r =>
          rw [hf] at hs
          injection hs with hs2
          subst hs2
          refine ⟨(s, r) :: t, ?_, ?_⟩
          · rw [ht]; simp
          · simpa using List.Sublist.cons₂ s hsub
      · rw [if_neg hc] at hs
        injection hs with hs2
        subst hs2
        exact ⟨t, ht, List.Sublist.cons s hsub⟩

theorem resolveStrategies_inv (o : Oracle) (a : Article) (d : Option String)
    (w : WFState) (h : resolveStrategies o a d = Except.ok w) : WFInv w := by
  unfold resolveStrategies at h
  refine wfRun_inv (strategyClauses o a d) _ w h ⟨?_, ?_, ?_⟩
  · intro p hp; exact absurd hp (List.not_mem_nil p)
  · intro h2; exact absurd rfl h2
  · intro _; rfl

/-! ## Helper lemmas: the ledger dict -/

theorem lookupL_upsert_self (L : Ledger) (k : String) (e : Entry) :
    lookupL (upsert L k e) k = some e := by
  induction L with
  | nil => simp [upsert, lookupL]
  | cons p rest ih =>
    obtain ⟨k1, e1⟩ := p
    by_cases h : k1 = k
    · simp [upsert, h, lookupL]
    · simp [upsert, h, lookupL, ih]

theorem lookupL_upsert_other (L : Ledger) (k : String) (e : Entry) (k2 : String)
    (hne : k2 ≠ k) : lookupL (upsert L k e) k2 = lookupL L k2 := by
  have hkk2 : ¬ k = k2 := fun hh => hne hh.symm
  induction L with
  | nil =>
    simp only [upsert, lookupL]
    rw [if_neg hkk2]
  | cons p rest ih =>
    obtain ⟨k1, e1⟩ := p
    by_cases h : k1 = k
    · simp only [upsert, if_pos h, lookupL]
      rw [if_neg hkk2, if_neg (fun hh => hkk2 (h ▸ hh))]
    · simp only [upsert, if_neg h, lookupL]
      by_cases h2 : k1 = k2
      · rw [if_pos h2, if_pos h2]
      · rw [if_neg h2, if_neg h2]
        exact ih

theorem mem_ledgerKeys_upsert :
    ∀ (L : Ledger) (k : String) (e : Entry) (x : String),
      x ∈ ledgerKeys (upsert L k e) → x ∈ ledgerKeys L ∨ x = k
  | [], k, e, x, hx => by
    simp [upsert, ledgerKeys] at hx
    exact Or.inr hx
  | (k1, e1) :: rest, k, e, x, hx => by
    by_cases h : k1 = k
    · rw [show upsert ((k1, e1) :: rest) k e = (k, e) :: rest from by simp [upsert, h]] at hx
      simp only [ledgerKeys, List.map_cons, List.mem_cons] at hx ⊢
      rcases hx with h1 | h2
      · exact Or.inr h1
      · exact Or.inl (Or.inr h2)
    · rw [show upsert ((k1, e1) :: rest) k e = (k1, e1) :: upsert rest k e from
          by simp [upsert, h]] at hx
      simp only [ledgerKeys, List.map_cons, List.mem_cons] at hx ⊢
      rcases hx with h1 | h2
      · exact Or.inl (Or.inl h1)
      · rcases mem_ledgerKeys_upsert rest k e x (by simpa [ledgerKeys] using h2) with h3 | h4
        · exact Or.inl (Or.inr (by simpa [ledgerKeys] using h3))
        · exact Or.inr h4

theorem ledgerKeys_upsert_nodup (L : Ledger) (k : String) (e : Entry)
    (hnd : (ledgerKeys L).Nodup) : (ledgerKeys (upsert L k e)).Nodup := by
  induction L with
  | nil => simp [upsert, ledgerKeys]
  | cons p rest ih =>
    obtain ⟨k1, e1⟩ := p
    simp only [ledgerKeys, List.map_cons, List.nodup_cons] at hnd
    by_cases h : k1 = k
    · simp only [upsert, if_pos h, ledgerKeys, List.map_cons, List.nodup_cons]
      exact ⟨h ▸ hnd.1, hnd.2⟩
    · simp only [upsert, if_neg h, ledgerKeys, List.map_cons, List.nodup_cons]
      refine ⟨?_, ih hnd.2⟩
      intro hmem
      rcases mem_ledgerKeys_upsert rest k e k1 (by simpa [ledgerKeys] using hmem) with h1 | h2
      · exact hnd.1 (by simpa [ledgerKeys] using h1)
      · exact h h2

theorem lookupL_upsert_cases (L : Ledger) (k0 : String) (e0 : Entry) (k : String)
    (e : Entry) (h : lookupL (upsert L k0 e0) k = some e) :
    (k = k0 ∧ e = e0) ∨ lookupL L k = some e := by
  by_cases hk : k = k0
  · subst hk
    rw [lookupL_upsert_self] at h
    exact Or.inl ⟨rfl, (Option.some_injective _ h).symm⟩
  · rw [lookupL_upsert_other L k0 e0 k hk] at h
    exact Or.inr h

/-! ## Concrete fixtures for witnesses and counterexamples -/

/-- A quiescent outside world: every lookup fails softly, every browser
stage raises before a session opens, the direct transfer raises, the
ledger write succeeds. -/
def oracleBase : Oracle :=
  { crossref := fun _ _ => none
    unpaywall := fun _ => none
    semantic := fun _ => none
    publisherPlain := fun _ => none
    publisherSel := fun _ => PubSelOutcome.exnBeforeOpen
    scrapeSel := fun _ => ScrapeOutcome.exnBeforeOpen
    direct := fun _ => DirectResp.exn "connection error"
    dlSel := fun _ _ => DlSelOutcome.noFile
    saveOk := fun _ => true }

/-- A record carrying its own DOI. -/
def artWithDoi : Article :=
  { title := "Foo", authors := none, url := none, pub_url := none,
    venue := some "", doi := some "10.1/xyz" }

/-- A DOI-less record. -/
def artNoDoi : Article :=
  { title := "Bar", authors := none, url := none, pub_url := none,
    venue := some "", doi := none }

/-- A successful ledger entry for artWithDoi. -/
def entryDoneDoi : Entry :=
  { title := "Foo", doi := some "10.1/xyz", pdf_url := some "http://x/p.pdf",
    downloaded := true, fail_reason := none }

/-- A successful ledger entry for artNoDoi, keyed by its raw title. -/
def entryDoneBar : Entry :=
  { title := "Bar", doi := none, pdf_url := some "http://x/p.pdf",
    downloaded := true, fail_reason := none }

def ledgerDoneDoi : Ledger := [("10.1/xyz", entryDoneDoi)]

def ledgerDoneBar : Ledger := [("Bar", entryDoneBar)]

/-! ## Claim C1 -/

/-- Claim C1, amended.  When the Ledger already shows downloaded = true
for the identity of a record: a record carrying its own (truthy) DOI is
skipped with zero network and browser operations; a record without one
first incurs exactly the single CrossRef DOI-derivation request needed to
compute its identity (line 412 runs before the skip test of line 415),
and nothing else.  In both cases the ledger is left untouched. -/
theorem claim_C1_amended (o : Oracle) (idx : Nat) (L : Ledger) (a : Article)
    (hdl : downloadedAt L (keyOf o a) = true) :
    (truthyO a.doi = true → processItem o idx L a = Except.ok (L, []))
    ∧ (truthyO a.doi = false →
        processItem o idx L a = Except.ok (L, [Op.net NetKind.crossref])) := by
  constructor
  · intro h
    simp [processItem, hdl, doiOps, h]
  · intro h
    simp [processItem, hdl, doiOps, h]

/-- Witness for C1: a concrete record with a DOI, whose ledger entry is
already downloaded, is skipped with an empty trace. -/
theorem claim_C1_witness :
    processItem oracleBase 0 ledgerDoneDoi artWithDoi = Except.ok (ledgerDoneDoi, []) :=
  (claim_C1_amended oracleBase 0 ledgerDoneDoi artWithDoi (by decide)).1 (by decide)

/-- Counterexample to C1 as stated: a DOI-less record whose identity is
already downloaded in the Ledger still triggers one network request (the
CrossRef DOI-derivation lookup) before being skipped, so the number of
network operations is not zero. -/
theorem claim_C1_counterexample :
    downloadedAt ledgerDoneBar (keyOf oracleBase artNoDoi) = true
    ∧ processItem oracleBase 0 ledgerDoneBar artNoDoi
        = Except.ok (ledgerDoneBar, [Op.net NetKind.crossref])
    ∧ countOps [Op.net NetKind.crossref] isNetOp ≠ 0 :=
  ⟨by decide, rfl, by decide⟩

/-! ## Claim C2 -/

/-- A record with a DOI, a public landing page and a NULL venue, as the
upstream script emits for venue-less articles. -/
def artNullVenue : Article :=
  { title := "Null venue", authors := none, url := none,
    pub_url := some "http://pub.example.org/p", venue := none, doi := some "10.2/nv" }

/-- The waterfall state of a completed resolution in the quiescent world
for a record with a DOI, an empty venue and no other links: strategies
1, 3 and 4 attempted, none truthy. -/
def wfNoUrl : WFState :=
  { cur := none,
    atts := [(Strat.unpaywall, none), (Strat.preprint, none), (Strat.publisher, none)],
    ops := [Op.net NetKind.unpaywall, Op.net NetKind.publisherPlain] }

/-- Claim C2, amended: whenever the resolution chain COMPLETES (no
strategy raises), the attempted strategies form an ordered subsequence
of the canonical chain, every non-final attempt returned a falsy URL
(short-circuit at the first non-empty URL, whose value is the chain
result), a truthy effective DOI makes the DOI-based strategy the very
first attempt — hence before any browser-based strategy — and a record
carrying its own DOI keeps it as effective DOI; inside the publisher
strategy the plain HTTP fetch short-circuits the browser-rendered
stage.  Completion is not guaranteed: on a null venue strategy 3 raises
and the chain aborts with no Resolution Result (see the
counterexample). -/
theorem claim_C2_amended (o : Oracle) (a : Article) (d : Option String) (w : WFState)
    (hok : resolveStrategies o a d = Except.ok w) :
    ((w.atts.map Prod.fst).Sublist canonicalOrder)
    ∧ (∀ p ∈ w.atts.dropLast, truthyO p.2 = false)
    ∧ (∀ h : w.atts ≠ [], (w.atts.getLast h).2 = w.cur)
    ∧ (truthyO d = true →
        w.atts.head? = some (Strat.unpaywall, o.unpaywall (d.getD "")))
    ∧ (truthyO a.doi = true → effDoi o a = a.doi)
    ∧ (∀ doi fu hrefs h2, o.publisherPlain doi = some (fu, hrefs) →
        scan_pdf_anchors (schemeHost fu) hrefs = some h2 →
        get_pdf_link_from_publisher_page o doi
          = (some h2, [Op.net NetKind.publisherPlain])) := by
  refine ⟨?_, ?_, ?_, ?_, ?_, ?_⟩
  · have hok2 := hok
    unfold resolveStrategies at hok2
    obtain ⟨t, ht, hs⟩ := wfRun_atts_extend (strategyClauses o a d) _ w hok2
    rw [ht]
    simpa [strategyClauses, canonicalOrder] using hs
  · exact (resolveStrategies_inv o a d w hok).1
  · exact (resolveStrategies_inv o a d w hok).2.1
  · intro hd
    have hstep : wfStep { cur := none, atts := [], ops := [] } (truthyO d) Strat.unpaywall
        (fun _ => liftStrat (get_pdf_link_from_unpaywall o (d.getD ""))) =
        Except.ok
          { cur := o.unpaywall (d.getD ""),
            atts := [(Strat.unpaywall, o.unpaywall (d.getD ""))],
            ops := [Op.net NetKind.unpaywall] } := by
      unfold wfStep
      rw [if_pos (by simpa [truthyO] using hd)]
      simp [liftStrat, get_pdf_link_from_unpaywall]
    have hcons : resolveStrategies o a d =
        wfRun (wfStep { cur := none, atts := [], ops := [] } (truthyO d) Strat.unpaywall
          (fun _ => liftStrat (get_pdf_link_from_unpaywall o (d.getD ""))))
          [ (truthyO a.url, Strat.semantic,
              fun _ => liftStrat (get_pdf_link_from_semanticscholar o (a.url.getD ""))),
            (true, Strat.preprint, fun _ => get_pdf_link_from_arxiv_biorxiv o a),
            (truthyO d, Strat.publisher,
              fun _ => liftStrat (get_pdf_link_from_publisher_page o (d.getD ""))),
            (truthyO a.pub_url, Strat.genericB,
              fun _ => liftStrat (scrape_pdf_with_selenium o (a.pub_url.getD ""))) ] := rfl
    rw [hcons, hstep] at hok
    obtain ⟨t, ht, _⟩ := wfRun_atts_extend _ _ w hok
    rw [ht]
    simp
  · intro h
    simp [effDoi, h]
  · intro doi fu hrefs h2 e1 e2
    simp [get_pdf_link_from_publisher_page, e1, e2]

/-- Counterexample to C2 as stated: a record with a truthy DOI and a
truthy public landing page but a null venue makes strategy 3 raise the
escaping AttributeError — the resolution aborts with no Resolution
Result, so strategies 4 and 5 are never attempted although no strategy
returned a non-empty URL, and processing the item aborts the run. -/
theorem claim_C2_counterexample :
    resolveStrategies oracleBase artNullVenue (some "10.2/nv")
      = Except.error attrErrVenue
    ∧ truthyO artNullVenue.doi = true
    ∧ truthyO artNullVenue.pub_url = true
    ∧ processItem oracleBase 0 [] artNullVenue = Except.error attrErrVenue :=
  ⟨rfl, by decide, by decide, rfl⟩

/-- Witness for C2: a concrete completed resolution of a record with a
DOI attempts the DOI-based open-access lookup first. -/
theorem claim_C2_witness :
    wfNoUrl.atts.head? = some (Strat.unpaywall, oracleBase.unpaywall "10.1/xyz") :=
  (claim_C2_amended oracleBase artWithDoi (some "10.1/xyz") wfNoUrl rfl).2.2.2.1
    (by decide)

/-! ## Claim C3 -/

/-- Two DOI-less records whose raw titles differ only in surface form. -/
def artOpen1 : Article :=
  { title := "Open Data, Principles!", authors := none, url := none,
    pub_url := none, venue := some "", doi := none }

def artOpen2 : Article :=
  { title := "open data principles", authors := none, url := none,
    pub_url := none, venue := some "", doi := none }

/-- Claim C3, amended.  The Ledger key is the effective DOI when truthy
(the record's own DOI, line 412 and 414); otherwise it is the RAW title
string — the pipeline never applies the title normalisation (that lives
only in the upstream search script) — and the load-time key of a
persisted entry is likewise its raw title when its DOI is falsy. -/
theorem claim_C3_amended (o : Oracle) (a : Article) :
    (truthyO a.doi = true → keyOf o a = a.doi.getD "")
    ∧ (a.doi = none → o.crossref a.title a.authors = none → keyOf o a = a.title)
    ∧ (∀ e : Entry, truthyO e.doi = false → loadKey e = e.title) := by
  refine ⟨?_, ?_, ?_⟩
  · intro h
    unfold keyOf effDoi
    rw [if_pos h]
    cases hda : a.doi with
    | none => rw [hda] at h; simp [truthyO] at h
    | some s =>
      rw [hda] at h
      simp only [truthyO] at h
      simp [orElseT, h]
  · intro h1 h2
    simp [keyOf, effDoi, h1, h2, truthyO, orElseT]
  · intro e h
    cases he : e.doi with
    | none => simp [loadKey, orElseT, he]
    | some s =>
      rw [he] at h
      simp only [truthyO] at h
      simp [loadKey, orElseT, he, h]

/-- Witness for C3: the concrete record with DOI 10.1/xyz is keyed by
that DOI. -/
theorem claim_C3_witness : keyOf oracleBase artWithDoi = "10.1/xyz" :=
  (claim_C3_amended oracleBase artWithDoi).1 (by decide)

/-- Counterexample to C3 as stated: the two DOI-less surface-form titles
have the same normalized form, yet their ledger keys differ, and a run
over both records produces two distinct ledger entries keyed by the raw
titles (not one shared entry). -/
theorem claim_C3_counterexample :
    normalize_title "Open Data, Principles!" = normalize_title "open data principles"
    ∧ keyOf oracleBase artOpen1 ≠ keyOf oracleBase artOpen2
    ∧ (main_loop oracleBase 0 [] [artOpen1, artOpen2]).toOption.map
        (fun p => ledgerKeys p.1)
      = some ["Open Data, Principles!", "open data principles"] :=
  ⟨by decide, by decide, by decide⟩

/-! ## Claim C4 -/

/-- Claim C4, amended.  For a direct transfer answered with HTTP 403 or a
challenge-marked body, download_pdf issues the direct transfer exactly
once (never re-issuing it in a retry loop) and dispatches to the
browser-driven fallback: exactly once when that fallback returns
normally; when the fallback itself raises (a browser launch failure
escapes its try/finally), the generic exception handler makes exactly one
further fallback dispatch, so between one and two in all cases. -/
theorem claim_C4_amended (o : Oracle) (url : String) (status : Nat) (marker : Bool)
    (hresp : o.direct url = DirectResp.resp status marker)
    (hblock : status = 403 ∨ marker = true) :
    countOps (download_pdf o url).2 isDirectNet = 1
    ∧ 1 ≤ countOps (download_pdf o url).2 isSelInvoke
    ∧ countOps (download_pdf o url).2 isSelInvoke ≤ 2
    ∧ ((∀ m, o.dlSel url 0 ≠ DlSelOutcome.launchExn m) →
        countOps (download_pdf o url).2 isSelInvoke = 1) := by
  simp only [download_pdf, hresp]
  rw [if_pos hblock]
  cases h0 : o.dlSel url 0 with
  | launchExn m =>
    cases h1 : o.dlSel url 1 with
    | launchExn m2 =>
      refine ⟨?_, ?_, ?_, fun hno => absurd rfl (hno m)⟩ <;>
        simp [download_pdf_selenium, download_pdf_fallback, h0, h1, countOps,
              isDirectNet, isSelInvoke]
    | caughtExn m2 =>
      refine ⟨?_, ?_, ?_, fun hno => absurd rfl (hno m)⟩ <;>
        simp [download_pdf_selenium, download_pdf_fallback, h0, h1, countOps,
              isDirectNet, isSelInvoke]
    | fileFound =>
      refine ⟨?_, ?_, ?_, fun hno => absurd rfl (hno m)⟩ <;>
        simp [download_pdf_selenium, download_pdf_fallback, h0, h1, countOps,
              isDirectNet, isSelInvoke]
    | curUrlPdf ok2 =>
      cases ok2 <;>
        refine ⟨?_, ?_, ?_, fun hno => absurd rfl (hno m)⟩ <;>
          simp [download_pdf_selenium, download_pdf_fallback, h0, h1, countOps,
                isDirectNet, isSelInvoke]
    | noFile =>
      refine ⟨?_, ?_, ?_, fun hno => absurd rfl (hno m)⟩ <;>
        simp [download_pdf_selenium, download_pdf_fallback, h0, h1, countOps,
              isDirectNet, isSelInvoke]
  | caughtExn m =>
    refine ⟨?_, ?_, ?_, fun _ => ?_⟩ <;>
      simp [download_pdf_selenium, h0, countOps, isDirectNet, isSelInvoke]
  | fileFound =>
    refine ⟨?_, ?_, ?_, fun _ => ?_⟩ <;>
      simp [download_pdf_selenium, h0, countOps, isDirectNet, isSelInvoke]
  | curUrlPdf ok =>
    cases ok <;>
      refine ⟨?_, ?_, ?_, fun _ => ?_⟩ <;>
        simp [download_pdf_selenium, h0, countOps, isDirectNet, isSelInvoke]
  | noFile =>
    refine ⟨?_, ?_, ?_, fun _ => ?_⟩ <;>
      simp [download_pdf_selenium, h0, countOps, isDirectNet, isSelInvoke]

/-- A blocked direct transfer whose first browser fallback raises at
launch and whose second finds nothing. -/
def oC4 : Oracle :=
  { oracleBase with
      direct := fun _ => DirectResp.resp 403 false
      dlSel := fun _ i =>
        if i = 0 then DlSelOutcome.launchExn "uc launch failed" else DlSelOutcome.noFile }

/-- A blocked direct transfer whose browser fallback returns normally. -/
def oC4W : Oracle :=
  { oracleBase with direct := fun _ => DirectResp.resp 403 false }

/-- Counterexample to C4 as stated: on a 403 response whose first
browser-driven fallback raises at browser launch, download_pdf performs
TWO browser-driven fallback attempts (the second from the generic
exception handler at line 321), not exactly one; the direct transfer is
still issued only once. -/
theorem claim_C4_counterexample :
    countOps (download_pdf oC4 "http://pub.example.org/a.pdf").2 isSelInvoke = 2
    ∧ countOps (download_pdf oC4 "http://pub.example.org/a.pdf").2 isDirectNet = 1
    ∧ (download_pdf oC4 "http://pub.example.org/a.pdf").1
        = Except.ok (false,
            some "uc launch failed | Selenium: PDF not found after Selenium download") :=
  ⟨by decide, by decide, rfl⟩

/-- Witness for C4: on a concrete 403 response with a normally returning
fallback, exactly one direct transfer and exactly one fallback attempt. -/
theorem claim_C4_witness :
    countOps (download_pdf oC4W "http://pub.example.org/a.pdf").2 isDirectNet = 1
    ∧ countOps (download_pdf oC4W "http://pub.example.org/a.pdf").2 isSelInvoke = 1 := by
  have h := claim_C4_amended oC4W "http://pub.example.org/a.pdf" 403 false rfl (Or.inl rfl)
  exact ⟨h.1, h.2.2.2 (fun m hc => by simp [oC4W, oracleBase] at hc)⟩

/-! ## Claim C5 -/

/-- A DOI for which the plain doi.org fetch raises and the browser render
raises after the session has opened. -/
def oC5 : Oracle :=
  { oracleBase with publisherSel := fun _ => PubSelOutcome.exnAfterOpen }

/-- Claim C5 evaluated on the code: in get_pdf_link_from_publisher_page,
an exception raised after the browser session opened (its except clause
at line 168 only prints) leaves the session open — the trace records an
opened browser that is never closed.  The other two browser users do
balance every open with a close: download_pdf_selenium via its finally
clause, scrape_pdf_with_selenium by quitting on both normal exits and in
its except clause. -/
theorem claim_C5_leak :
    ((get_pdf_link_from_publisher_page oC5 "10.1/x").2
        = [Op.net NetKind.publisherPlain, Op.browserOpen]
      ∧ countOps (get_pdf_link_from_publisher_page oC5 "10.1/x").2 isBrowserOpen = 1
      ∧ countOps (get_pdf_link_from_publisher_page oC5 "10.1/x").2 isBrowserClose = 0)
    ∧ (∀ o : Oracle, ∀ u : String, ∀ i : Nat,
        countOps (download_pdf_selenium o u i).2 isBrowserOpen
          = countOps (download_pdf_selenium o u i).2 isBrowserClose)
    ∧ (∀ o : Oracle, ∀ u : String,
        countOps (scrape_pdf_with_selenium o u).2 isBrowserOpen
          = countOps (scrape_pdf_with_selenium o u).2 isBrowserClose) := by
  refine ⟨⟨by decide, by decide, by decide⟩, ?_, ?_⟩
  · intro o u i
    cases h : o.dlSel u i <;>
      simp [download_pdf_selenium, h, countOps, isBrowserOpen, isBrowserClose]
  · intro o u
    cases h : o.scrapeSel u with
    | exnBeforeOpen => simp [scrape_pdf_with_selenium, h, countOps]
    | exnAfterOpen =>
      simp [scrape_pdf_with_selenium, h, countOps, isBrowserOpen, isBrowserClose]
    | page found =>
      cases found with
      | none =>
        simp [scrape_pdf_with_selenium, h, countOps, isBrowserOpen, isBrowserClose]
      | some href =>
        by_cases hc : strContains href ".pdf"
        · simp [scrape_pdf_with_selenium, h, hc, countOps, isBrowserOpen, isBrowserClose]
        · simp [scrape_pdf_with_selenium, h, hc, countOps, isBrowserOpen, isBrowserClose]

/-! ## Claim C7 (characterisation lemmas first) -/

theorem listContains_iff (needle : List Char) :
    ∀ hay : List Char, listContains needle hay = true ↔
      ∃ pre post, hay = pre ++ needle ++ post
  | [] => by
    simp only [listContains, List.isEmpty_iff]
    constructor
    · intro h
      exact ⟨[], [], by simp [h]⟩
    · rintro ⟨pre, post, h⟩
      rcases List.append_eq_nil.mp (List.append_eq_nil.mp h.symm).1 with ⟨_, h2⟩
      exact h2
  | c :: rest => by
    simp only [listContains, Bool.or_eq_true]
    rw [List.isPrefixOf_iff_prefix, listContains_iff needle rest]
    constructor
    · rintro (hpre | ⟨pre, post, h⟩)
      · obtain ⟨t, ht⟩ := hpre
        exact ⟨[], t, by simp [← ht]⟩
      · exact ⟨c :: pre, post, by simp [h]⟩
    · rintro ⟨pre, post, h⟩
      cases pre with
      | nil => exact Or.inl ⟨post, by simpa using h.symm⟩
      | cons c2 pre2 =>
        right
        refine ⟨pre2, post, ?_⟩
        simp only [List.cons_append, List.cons.injEq] at h
        exact h.2

theorem pyEndsWith_iff (s t : String) :
    pyEndsWith s t = true ↔ ∃ pre : List Char, s.data = pre ++ t.data := by
  unfold pyEndsWith
  rw [List.isSuffixOf_iff_suffix]
  constructor
  · rintro ⟨pre, hp⟩
    exact ⟨pre, hp.symm⟩
  · rintro ⟨pre, hp⟩
    exact ⟨pre, hp.symm⟩

/-- Claim C7: an anchor href is classified PDF-like exactly when its raw
text ends in the four characters ".pdf" or contains the four characters
"/pdf" as a contiguous run; the scan over a page selects an anchor
exactly when some href passes this test; the test is case-sensitive and
performed without URL-decoding (uppercase and percent-encoded variants
are rejected). -/
theorem claim_C7 :
    (∀ href : String, isPdfLike href = true ↔
        ((∃ pre : List Char, href.data = pre ++ ".pdf".data)
          ∨ (∃ pre post : List Char, href.data = pre ++ "/pdf".data ++ post)))
    ∧ (∀ (base : String) (hrefs : List String),
        (scan_pdf_anchors base hrefs).isSome = hrefs.any isPdfLike)
    ∧ isPdfLike "paper.pdf" = true
    ∧ isPdfLike "content/pdf/view" = true
    ∧ isPdfLike "paper.PDF" = false
    ∧ isPdfLike "content/PDF/view" = false
    ∧ isPdfLike "paper%2Epdf" = false
    ∧ isPdfLike "content%2Fpdf" = false := by
  refine ⟨?_, ?_, by decide, by decide, by decide, by decide, by decide, by decide⟩
  · intro href
    unfold isPdfLike
    rw [Bool.or_eq_true, pyEndsWith_iff]
    rw [show strContains href "/pdf" = listContains "/pdf".data href.data from rfl]
    rw [listContains_iff]
  · intro base hrefs
    induction hrefs with
    | nil => simp [scan_pdf_anchors]
    | cons h rest ih =>
      by_cases hp : isPdfLike h
      · simp [scan_pdf_anchors, hp]
      · simp [scan_pdf_anchors, hp, ih]

/-- Witness for C7: the classifier accepts a concrete ".pdf"-suffixed
href, through the characterisation. -/
theorem claim_C7_witness :
    (∃ pre : List Char, "paper.pdf".data = pre ++ ".pdf".data)
    ∨ (∃ pre post : List Char, "paper.pdf".data = pre ++ "/pdf".data ++ post) :=
  (claim_C7.1 "paper.pdf").mp (by decide)

/-! ## Claim C6 -/

theorem scan_pdf_anchors_eq_find (base : String) :
    ∀ hrefs : List String, scan_pdf_anchors base hrefs =
      (hrefs.find? isPdfLike).map
        (fun h => if pyStartsWith h "/" then base ++ h else h)
  | [] => rfl
  | h :: rest => by
    by_cases hp : isPdfLike h
    · simp [scan_pdf_anchors, hp, List.find?_cons_of_pos]
    · simp [scan_pdf_anchors, hp, List.find?_cons_of_neg,
            scan_pdf_anchors_eq_find base rest]

/-- Claim C6, amended.  The two publisher-page scrapes (plain HTTP and
browser-rendered) resolve a host-relative selected anchor against the
scheme and host of the page it was found on (the final response URL,
resp. the browser's current URL).  The bibliographic-API scrape,
however, resolves it against the FIXED base
"https://www.semanticscholar.org" (line 101), regardless of the page
fetched.  The last conjunct records the scheme-and-host computation on a
concrete URL. -/
theorem claim_C6_amended (o : Oracle) :
    (∀ doi fu hrefs h, o.publisherPlain doi = some (fu, hrefs) →
        hrefs.find? isPdfLike = some h → pyStartsWith h "/" = true →
        (get_pdf_link_from_publisher_page o doi).1 = some (schemeHost fu ++ h))
    ∧ (∀ doi cu hrefs h, o.publisherPlain doi = none →
        o.publisherSel doi = PubSelOutcome.page cu hrefs →
        hrefs.find? isPdfLike = some h → pyStartsWith h "/" = true →
        (get_pdf_link_from_publisher_page o doi).1 = some (schemeHost cu ++ h))
    ∧ (∀ u hrefs h, pyStartsWith u "http" = true → o.semantic u = some hrefs →
        hrefs.find? isPdfLike = some h → pyStartsWith h "/" = true →
        (get_pdf_link_from_semanticscholar o u).1
          = some ("https://www.semanticscholar.org" ++ h))
    ∧ schemeHost "https://www.biorxiv.org/content/10.1101/x/full"
        = "https://www.biorxiv.org" := by
  refine ⟨?_, ?_, ?_, by decide⟩
  · intro doi fu hrefs h e1 e2 e3
    simp [get_pdf_link_from_publisher_page, e1, scan_pdf_anchors_eq_find, e2, e3]
  · intro doi cu hrefs h e0 e1 e2 e3
    simp [get_pdf_link_from_publisher_page, e0, e1, scan_pdf_anchors_eq_find, e2, e3]
  · intro u hrefs h e0 e1 e2 e3
    simp [get_pdf_link_from_semanticscholar, e0, e1, scan_pdf_anchors_eq_find, e2, e3]

/-- A bibliographic-API detail page on a host other than
www.semanticscholar.org, carrying one host-relative PDF anchor. -/
def oC6 : Oracle :=
  { oracleBase with semantic := fun u =>
      if u = "http://alt.example.org/paper" then some ["/x/pdf"] else none }

/-- A publisher landing page carrying one host-relative PDF anchor. -/
def oC6W : Oracle :=
  { oracleBase with publisherPlain :=
      (fun _ => some ("https://pub.example.org/article/1", ["/content/123/full.pdf"])) }

/-- Counterexample to C6 as stated: the bibliographic-API scrape prefixes
the host-relative anchor with the fixed semanticscholar base, not with
the scheme and host of the page on which the anchor was found. -/
theorem claim_C6_counterexample :
    (get_pdf_link_from_semanticscholar oC6 "http://alt.example.org/paper").1
      = some "https://www.semanticscholar.org/x/pdf"
    ∧ schemeHost "http://alt.example.org/paper" = "http://alt.example.org"
    ∧ "https://www.semanticscholar.org/x/pdf"
        ≠ schemeHost "http://alt.example.org/paper" ++ "/x/pdf" :=
  ⟨by decide, by decide, by decide⟩

/-- Witness for C6: on a concrete publisher page the host-relative anchor
resolves to an absolute URL prefixed by that page's scheme and host. -/
theorem claim_C6_witness :
    (get_pdf_link_from_publisher_page oC6W "10.2/w").1
      = some "https://pub.example.org/content/123/full.pdf" := by
  have h := (claim_C6_amended oC6W).1 "10.2/w" "https://pub.example.org/article/1"
    ["/content/123/full.pdf"] "/content/123/full.pdf" rfl (by decide) (by decide)
  exact h.trans (by decide)

/-! ## Claim C8 -/

/-- Claim C8: a processed (non-skipped) item that completes replaces the
ledger binding of its identity by a dict upsert and its trace ends with a
persistence of the whole updated table; the run trace is the in-order
concatenation of the item traces, so that persistence precedes the next
item's operations; and the upsert overwrites any existing binding of the
same key, leaves other keys untouched, and never introduces a duplicate
key. -/
theorem claim_C8 :
    (∀ (o : Oracle) (idx : Nat) (L : Ledger) (a : Article) (L1 : Ledger) (tr : List Op),
        processItem o idx L a = Except.ok (L1, tr) →
        downloadedAt L (keyOf o a) = false →
        ∃ e, L1 = upsert L (keyOf o a) e
          ∧ tr.getLast? = some (Op.save (ledgerValues L1)))
    ∧ (∀ (o : Oracle) (idx : Nat) (L : Ledger) (a : Article) (rest : List Article)
          (Lf : Ledger) (tr : List Op),
        main_loop o idx L (a :: rest) = Except.ok (Lf, tr) →
        ∃ L1 tr1 tr2, processItem o idx L a = Except.ok (L1, tr1)
          ∧ tr = tr1 ++ tr2 ∧ main_loop o (idx + 1) L1 rest = Except.ok (Lf, tr2))
    ∧ (∀ (L : Ledger) (k : String) (e : Entry), lookupL (upsert L k e) k = some e)
    ∧ (∀ (L : Ledger) (k : String) (e : Entry) (k2 : String), k2 ≠ k →
        lookupL (upsert L k e) k2 = lookupL L k2)
    ∧ (∀ (L : Ledger) (k : String) (e : Entry),
        (ledgerKeys L).Nodup → (ledgerKeys (upsert L k e)).Nodup) := by
  refine ⟨?_, ?_, lookupL_upsert_self, lookupL_upsert_other, ledgerKeys_upsert_nodup⟩
  · intro o idx L a L1 tr hp hnd
    simp only [processItem] at hp
    rw [if_neg (by simp [hnd])] at hp
    split at hp
    · exact Except.noConfusion hp
    · split at hp
      · split at hp
        · exact Except.noConfusion hp
        · split at hp
          · simp only [Except.ok.injEq, Prod.mk.injEq] at hp
            obtain ⟨hL, hT⟩ := hp
            subst hL
            subst hT
            exact ⟨_, rfl, List.getLast?_concat _⟩
          · exact Except.noConfusion hp
      · split at hp
        · simp only [Except.ok.injEq, Prod.mk.injEq] at hp
          obtain ⟨hL, hT⟩ := hp
          subst hL
          subst hT
          exact ⟨_, rfl, List.getLast?_concat _⟩
        · exact Except.noConfusion hp
  · intro o idx L a rest Lf tr hml
    simp only [main_loop] at hml
    split at hml
    · exact Except.noConfusion hml
    · rename_i L1 tr1 heq
      split at hml
      · exact Except.noConfusion hml
      · rename_i L2 tr2 heq2
        simp only [Except.ok.injEq, Prod.mk.injEq] at hml
        obtain ⟨hL, hT⟩ := hml
        subst hL
        subst hT
        exact ⟨L1, tr1, tr2, heq, rfl, heq2⟩

/-- The ledger entry, table and trace produced by processing artWithDoi
against the quiescent world. -/
def entryFooFail : Entry :=
  { title := "Foo", doi := some "10.1/xyz", pdf_url := none,
    downloaded := false, fail_reason := some noPdfReason }

def ledgerFooFail : Ledger := [("10.1/xyz", entryFooFail)]

def trFooFail : List Op :=
  [Op.net NetKind.unpaywall, Op.net NetKind.publisherPlain, Op.save [entryFooFail]]

/-- Witness for C8: the concrete item run ends by persisting the upserted
table. -/
theorem claim_C8_witness :
    ∃ e, ledgerFooFail = upsert [] (keyOf oracleBase artWithDoi) e
      ∧ trFooFail.getLast? = some (Op.save (ledgerValues ledgerFooFail)) :=
  claim_C8.1 oracleBase 0 [] artWithDoi ledgerFooFail trFooFail rfl rfl

/-! ## Claim C9 -/

/-- A world whose ledger writes always fail. -/
def oSaveFail : Oracle := { oracleBase with saveOk := fun _ => false }

def artC9 : Article :=
  { title := "C9 item", authors := none, url := none, pub_url := none,
    venue := some "", doi := some "10.9/a" }

def artC9b : Article :=
  { title := "C9 second", authors := none, url := none, pub_url := none,
    venue := some "", doi := some "10.9/b" }

/-- Claim C9, amended.  A failure of the ledger write is NOT handled:
save_download_log_dict (lines 343-345) and its call site (line 441) have
no exception handler, so the exception aborts the run — any item whose
processing raises stops the loop with that exception, and in particular a
non-skipped item whose waterfall found no usable URL ends in the
ledger-write exception when the write fails. -/
theorem claim_C9_amended :
    (∀ (o : Oracle) (idx : Nat) (L : Ledger) (a : Article) (rest : List Article)
        (m : String), processItem o idx L a = Except.error m →
        main_loop o idx L (a :: rest) = Except.error m)
    ∧ (∀ (o : Oracle) (idx : Nat) (L : Ledger) (a : Article) (w : WFState),
        o.saveOk idx = false →
        downloadedAt L (keyOf o a) = false →
        resolveStrategies o a (effDoi o a) = Except.ok w →
        truthyO w.cur = false →
        processItem o idx L a = Except.error "ledger write failed") := by
  constructor
  · intro o idx L a rest m h
    simp [main_loop, h]
  · intro o idx L a w hs hnd hres hcur
    simp only [processItem]
    rw [if_neg (by simp [hnd])]
    rw [hres]
    simp [hcur, hs]

/-- Witness for C9: on a concrete record in the write-failing world, the
run aborts with the ledger-write exception. -/
theorem claim_C9_witness :
    main_loop oSaveFail 5 [] [artC9] = Except.error "ledger write failed" :=
  claim_C9_amended.1 oSaveFail 5 [] artC9 [] "ledger write failed"
    (claim_C9_amended.2 oSaveFail 5 [] artC9 wfNoUrl rfl rfl rfl (by decide))

/-- Counterexample to C9 as stated: with two items pending and a failing
ledger write, the run does not continue with the remaining items — it
aborts, surfacing the write exception. -/
theorem claim_C9_counterexample :
    main_loop oSaveFail 0 [] [artC9, artC9b] = Except.error "ledger write failed" :=
  rfl

/-! ## Claim C10 (helper lemmas first) -/

theorem download_pdf_fallback_ok_true (o : Oracle) (u emsg : String) (i : Nat)
    (pre : List Op) (fr : Option String) (tr : List Op)
    (h : download_pdf_fallback o u emsg i pre = (Except.ok (true, fr), tr)) :
    fr = none := by
  cases h0 : o.dlSel u i with
  | launchExn m => simp_all [download_pdf_fallback, download_pdf_selenium]
  | caughtExn m => simp_all [download_pdf_fallback, download_pdf_selenium]
  | fileFound => simp_all [download_pdf_fallback, download_pdf_selenium]
  | curUrlPdf ok2 => cases ok2 <;> simp_all [download_pdf_fallback, download_pdf_selenium]
  | noFile => simp_all [download_pdf_fallback, download_pdf_selenium]

theorem download_pdf_success_no_reason (o : Oracle) (u : String) (fr : Option String)
    (tr : List Op) (h : download_pdf o u = (Except.ok (true, fr), tr)) : fr = none := by
  cases hd : o.direct u with
  | exn m =>
    simp only [download_pdf, hd] at h
    exact download_pdf_fallback_ok_true o u m 0 _ fr tr h
  | resp st marker =>
    simp only [download_pdf, hd] at h
    by_cases hb : st = 403 ∨ marker = true
    · rw [if_pos hb] at h
      cases h0 : o.dlSel u 0 with
      | launchExn m =>
        simp only [download_pdf_selenium, h0] at h
        exact download_pdf_fallback_ok_true o u m 1 _ fr tr h
      | caughtExn m => simp_all [download_pdf_selenium]
      | fileFound => simp_all [download_pdf_selenium]
      | curUrlPdf ok2 => cases ok2 <;> simp_all [download_pdf_selenium]
      | noFile => simp_all [download_pdf_selenium]
    · rw [if_neg hb] at h
      by_cases h4 : 400 ≤ st
      · rw [if_pos h4] at h
        exact download_pdf_fallback_ok_true o u _ 0 _ fr tr h
      · rw [if_neg h4] at h
        simp_all

theorem truthyO_isSome (x : Option String) (h : truthyO x = true) : x.isSome = true := by
  cases x with
  | none => simp [truthyO] at h
  | some s => simp

theorem processItem_entry_invariant (o : Oracle) (idx : Nat) (L : Ledger) (a : Article)
    (L1 : Ledger) (tr : List Op) (k : String) (e : Entry)
    (hp : processItem o idx L a = Except.ok (L1, tr)) (hl : lookupL L1 k = some e) :
    lookupL L k = some e ∨
      (e.downloaded = true → e.fail_reason = none ∧ e.pdf_url.isSome = true) := by
  simp only [processItem] at hp
  by_cases hnd : downloadedAt L (keyOf o a) = true
  · rw [if_pos hnd] at hp
    simp only [Except.ok.injEq, Prod.mk.injEq] at hp
    obtain ⟨hL, _⟩ := hp
    subst hL
    exact Or.inl hl
  · rw [if_neg hnd] at hp
    split at hp
    · exact Except.noConfusion hp
    · split at hp
      · rename_i hurl
        split at hp
        · exact Except.noConfusion hp
        · rename_i success fail_reason opsD hdl
          split at hp
          · simp only [Except.ok.injEq, Prod.mk.injEq] at hp
            obtain ⟨hL, _⟩ := hp
            subst hL
            rcases lookupL_upsert_cases L (keyOf o a) _ k e hl with ⟨_, he⟩ | hold
            · subst he
              refine Or.inr (fun hdown => ?_)
              simp only at hdown
              subst hdown
              constructor
              · exact download_pdf_success_no_reason o _ fail_reason opsD hdl
              · simp only
                exact truthyO_isSome _ (by
                  have := (Bool.and_eq_true _ _ ▸ hurl).1
                  exact this)
            · exact Or.inl hold
          · exact Except.noConfusion hp
      · split at hp
        · simp only [Except.ok.injEq, Prod.mk.injEq] at hp
          obtain ⟨hL, _⟩ := hp
          subst hL
          rcases lookupL_upsert_cases L (keyOf o a) _ k e hl with ⟨_, he⟩ | hold
          · subst he
            exact Or.inr (fun hdown => by simp only at hdown; exact absurd hdown (by simp))
          · exact Or.inl hold
        · exact Except.noConfusion hp

theorem main_loop_entry_invariant (arts : List Article) :
    ∀ (o : Oracle) (idx : Nat) (L0 Lf : Ledger) (tr : List Op) (k : String) (e : Entry),
      main_loop o idx L0 arts = Except.ok (Lf, tr) → lookupL Lf k = some e →
      lookupL L0 k = some e ∨
        (e.downloaded = true → e.fail_reason = none ∧ e.pdf_url.isSome = true) := by
  induction arts with
  | nil =>
    intro o idx L0 Lf tr k e hml hl
    simp only [main_loop, Except.ok.injEq, Prod.mk.injEq] at hml
    obtain ⟨hL, _⟩ := hml
    subst hL
    exact Or.inl hl
  | cons a rest ih =>
    intro o idx L0 Lf tr k e hml hl
    simp only [main_loop] at hml
    split at hml
    · exact Except.noConfusion hml
    · rename_i L1 tr1 heq
      split at hml
      · exact Except.noConfusion hml
      · rename_i L2 tr2 heq2
        simp only [Except.ok.injEq, Prod.mk.injEq] at hml
        obtain ⟨hL, _⟩ := hml
        subst hL
        rcases ih o (idx + 1) L1 L2 tr2 k e heq2 hl with h1 | h2
        · exact processItem_entry_invariant o idx L0 a L1 tr1 k e heq h1
        · exact Or.inr h2

/-- Claim C10: the acquisition function never reports success together
with a failure reason, and consequently every ledger entry a run writes
(that is, every binding of the final table that was not already in the
initial one) satisfies: downloaded = true implies a null failure reason
and a present pdf_url. -/
theorem claim_C10 :
    (∀ (o : Oracle) (u : String) (fr : Option String) (tr : List Op),
        download_pdf o u = (Except.ok (true, fr), tr) → fr = none)
    ∧ (∀ (o : Oracle) (idx : Nat) (L0 : Ledger) (arts : List Article) (Lf : Ledger)
          (tr : List Op) (k : String) (e : Entry),
        main_loop o idx L0 arts = Except.ok (Lf, tr) → lookupL Lf k = some e →
        lookupL L0 k = some e ∨
          (e.downloaded = true → e.fail_reason = none ∧ e.pdf_url.isSome = true)) :=
  ⟨download_pdf_success_no_reason,
   fun o idx L0 arts => main_loop_entry_invariant arts o idx L0⟩

/-- A world in which the DOI lookup yields an open-access URL and the
direct transfer succeeds. -/
def oC10 : Oracle :=
  { oracleBase with
      unpaywall := fun _ => some "http://x/a.pdf"
      direct := fun _ => DirectResp.resp 200 false }

def artC10 : Article :=
  { title := "C10", authors := none, url := none, pub_url := none,
    venue := none, doi := some "10.5/c10" }

def entryC10 : Entry :=
  { title := "C10", doi := some "10.5/c10", pdf_url := some "http://x/a.pdf",
    downloaded := true, fail_reason := none }

def ledgC10 : Ledger := [("10.5/c10", entryC10)]

def trC10 : List Op :=
  [Op.net NetKind.unpaywall, Op.net NetKind.direct, Op.save [entryC10]]

/-- Witness for C10: on a concrete successful run, the downloaded entry
satisfies the invariant. -/
theorem claim_C10_witness :
    lookupL ([] : Ledger) "10.5/c10" = some entryC10 ∨
      (entryC10.downloaded = true →
        entryC10.fail_reason = none ∧ entryC10.pdf_url.isSome = true) :=
  claim_C10.2 oC10 0 [] [artC10] ledgC10 trC10 "10.5/c10" entryC10 rfl rfl
